import Mathlib

/- Verification development for the code-metrics tree model and query engine
of the rust-code-analysis python bindings (rust-code-analysis-python).
The data shapes, the metric-record conversion layer, the space-tree builder,
the traversal queries and the analysis orchestrator are embedded shallowly
from src/rust-code-analysis-python/src/lib.rs and src/types.rs. -/

/- A 64-bit floating-point value as carried through the bindings. The
conversion layer never computes with these values: it only copies them from
the engine accessors into the flattened records. The embedding therefore only
needs to distinguish finite values (carried as rationals), the two infinities
and NaN. -/
inductive F64 where
  | finite (val : ℚ)
  | nan
  | posInf
  | negInf
deriving DecidableEq

def F64.isFinite : F64 → Bool
  | .finite _ => true
  | _ => false

/- Zero, the common default value for the engine statistics. -/
def f0 : F64 := .finite 0

/- Accessor interface of the engine per-region cyclomatic statistics
provider (rca cyclomatic Stats): one field per accessor method consumed by
the bindings. -/
structure CyclomaticStats where
  cyclomatic_sum : F64
  cyclomatic_average : F64
  cyclomatic_min : F64
  cyclomatic_max : F64
deriving DecidableEq

/- Accessor interface of the engine cognitive statistics provider. -/
structure CognitiveStats where
  cognitive_sum : F64
  cognitive_average : F64
  cognitive_min : F64
  cognitive_max : F64
deriving DecidableEq

/- Accessor interface of the engine Halstead statistics provider. -/
structure HalsteadStats where
  u_operators : F64
  operators : F64
  u_operands : F64
  operands : F64
  length : F64
  estimated_program_length : F64
  purity_ratio : F64
  vocabulary : F64
  volume : F64
  difficulty : F64
  level : F64
  effort : F64
  time : F64
  bugs : F64
deriving DecidableEq

/- Accessor interface of the engine lines-of-code statistics provider. -/
structure LocStats where
  sloc : F64
  ploc : F64
  lloc : F64
  cloc : F64
  blank : F64
  sloc_average : F64
  ploc_average : F64
  lloc_average : F64
  cloc_average : F64
  blank_average : F64
  sloc_min : F64
  sloc_max : F64
  ploc_min : F64
  ploc_max : F64
  lloc_min : F64
  lloc_max : F64
  cloc_min : F64
  cloc_max : F64
  blank_min : F64
  blank_max : F64
deriving DecidableEq

/- Accessor interface of the engine maintainability-index provider. -/
structure MiStats where
  mi_original : F64
  mi_sei : F64
  mi_visual_studio : F64
deriving DecidableEq

/- Accessor interface of the engine ABC statistics provider. -/
structure AbcStats where
  assignments_sum : F64
  branches_sum : F64
  conditions_sum : F64
  magnitude_sum : F64
  assignments_average : F64
  branches_average : F64
  conditions_average : F64
  assignments_min : F64
  assignments_max : F64
  branches_min : F64
  branches_max : F64
  conditions_min : F64
  conditions_max : F64
deriving DecidableEq

/- Accessor interface of the engine number-of-methods provider. -/
structure NomStats where
  functions_sum : F64
  closures_sum : F64
  total : F64
  functions_average : F64
  closures_average : F64
  average : F64
  functions_min : F64
  functions_max : F64
  closures_min : F64
  closures_max : F64
deriving DecidableEq

/- Accessor interface of the engine number-of-arguments provider. -/
structure NargsStats where
  fn_args_sum : F64
  closure_args_sum : F64
  fn_args_average : F64
  closure_args_average : F64
  nargs_total : F64
  nargs_average : F64
  fn_args_min : F64
  fn_args_max : F64
  closure_args_min : F64
  closure_args_max : F64
deriving DecidableEq

/- Accessor interface of the engine exit-points provider. -/
structure ExitStats where
  exit_sum : F64
  exit_average : F64
  exit_min : F64
  exit_max : F64
deriving DecidableEq

/- Accessor interface of the engine weighted-methods-per-class provider. -/
structure WmcStats where
  class_wmc_sum : F64
  interface_wmc_sum : F64
  total_wmc : F64
deriving DecidableEq

/- Accessor interface of the engine number-of-public-methods provider. -/
structure NpmStats where
  class_npm_sum : F64
  interface_npm_sum : F64
  total_npm : F64
deriving DecidableEq

/- Accessor interface of the engine number-of-public-attributes provider. -/
structure NpaStats where
  class_npa_sum : F64
  interface_npa_sum : F64
  total_npa : F64
deriving DecidableEq

/- The engine per-region aggregate raw statistics (rca CodeMetrics): one
provider per metric category. -/
structure CodeMetrics where
  cyclomatic : CyclomaticStats
  cognitive : CognitiveStats
  halstead : HalsteadStats
  loc : LocStats
  mi : MiStats
  abc : AbcStats
  nom : NomStats
  nargs : NargsStats
  nexits : ExitStats
  wmc : WmcStats
  npm : NpmStats
  npa : NpaStats
deriving DecidableEq

/- PyCyclomaticMetrics: the flattened cyclomatic record of the bindings. -/
structure PyCyclomaticMetrics where
  sum : F64
  average : F64
  min : F64
  max : F64
deriving DecidableEq

/- From(rca cyclomatic Stats) for PyCyclomaticMetrics. -/
def PyCyclomaticMetrics.ofStats (stats : CyclomaticStats) : PyCyclomaticMetrics :=
  { sum := stats.cyclomatic_sum
    average := stats.cyclomatic_average
    min := stats.cyclomatic_min
    max := stats.cyclomatic_max }

/- PyCognitiveMetrics: the flattened cognitive record of the bindings. -/
structure PyCognitiveMetrics where
  sum : F64
  average : F64
  min : F64
  max : F64
deriving DecidableEq

/- From(rca cognitive Stats) for PyCognitiveMetrics. -/
def PyCognitiveMetrics.ofStats (stats : CognitiveStats) : PyCognitiveMetrics :=
  { sum := stats.cognitive_sum
    average := stats.cognitive_average
    min := stats.cognitive_min
    max := stats.cognitive_max }

/- PyHalsteadMetrics: the flattened Halstead record of the bindings. -/
structure PyHalsteadMetrics where
  n1 : F64
  big_n1 : F64
  n2 : F64
  big_n2 : F64
  length : F64
  estimated_program_length : F64
  purity_ratio : F64
  vocabulary : F64
  volume : F64
  difficulty : F64
  level : F64
  effort : F64
  time : F64
  bugs : F64
deriving DecidableEq

/- From(rca halstead Stats) for PyHalsteadMetrics. -/
def PyHalsteadMetrics.ofStats (stats : HalsteadStats) : PyHalsteadMetrics :=
  { n1 := stats.u_operators
    big_n1 := stats.operators
    n2 := stats.u_operands
    big_n2 := stats.operands
    length := stats.length
    estimated_program_length := stats.estimated_program_length
    purity_ratio := HalsteadStats.purity_ratio stats
    vocabulary := stats.vocabulary
    volume := stats.volume
    difficulty := stats.difficulty
    level := stats.level
    effort := stats.effort
    time := stats.time
    bugs := stats.bugs }

/- PyLocMetrics: the flattened lines-of-code record of the bindings. -/
structure PyLocMetrics where
  sloc : F64
  ploc : F64
  lloc : F64
  cloc : F64
  blank : F64
  sloc_average : F64
  ploc_average : F64
  lloc_average : F64
  cloc_average : F64
  blank_average : F64
  sloc_min : F64
  sloc_max : F64
  ploc_min : F64
  ploc_max : F64
  lloc_min : F64
  lloc_max : F64
  cloc_min : F64
  cloc_max : F64
  blank_min : F64
  blank_max : F64
deriving DecidableEq

/- From(rca loc Stats) for PyLocMetrics. -/
def PyLocMetrics.ofStats (stats : LocStats) : PyLocMetrics :=
  { sloc := stats.sloc
    ploc := stats.ploc
    lloc := stats.lloc
    cloc := stats.cloc
    blank := stats.blank
    sloc_average := stats.sloc_average
    ploc_average := stats.ploc_average
    lloc_average := stats.lloc_average
    cloc_average := stats.cloc_average
    blank_average := stats.blank_average
    sloc_min := stats.sloc_min
    sloc_max := stats.sloc_max
    ploc_min := stats.ploc_min
    ploc_max := stats.ploc_max
    lloc_min := stats.lloc_min
    lloc_max := stats.lloc_max
    cloc_min := stats.cloc_min
    cloc_max := stats.cloc_max
    blank_min := stats.blank_min
    blank_max := stats.blank_max }

/- PyMaintainabilityIndex: the flattened maintainability record. -/
structure PyMaintainabilityIndex where
  mi_original : F64
  mi_sei : F64
  mi_visual_studio : F64
deriving DecidableEq

/- From(rca mi Stats) for PyMaintainabilityIndex. -/
def PyMaintainabilityIndex.ofStats (stats : MiStats) : PyMaintainabilityIndex :=
  { mi_original := stats.mi_original
    mi_sei := stats.mi_sei
    mi_visual_studio := stats.mi_visual_studio }

/- PyAbcMetrics: the flattened ABC record of the bindings. -/
structure PyAbcMetrics where
  assignments : F64
  branches : F64
  conditions : F64
  magnitude : F64
  assignments_average : F64
  branches_average : F64
  conditions_average : F64
  assignments_min : F64
  assignments_max : F64
  branches_min : F64
  branches_max : F64
  conditions_min : F64
  conditions_max : F64
deriving DecidableEq

/- From(rca abc Stats) for PyAbcMetrics. -/
def PyAbcMetrics.ofStats (stats : AbcStats) : PyAbcMetrics :=
  { assignments := stats.assignments_sum
    branches := stats.branches_sum
    conditions := stats.conditions_sum
    magnitude := stats.magnitude_sum
    assignments_average := stats.assignments_average
    branches_average := stats.branches_average
    conditions_average := stats.conditions_average
    assignments_min := stats.assignments_min
    assignments_max := stats.assignments_max
    branches_min := stats.branches_min
    branches_max := stats.branches_max
    conditions_min := stats.conditions_min
    conditions_max := stats.conditions_max }

/- PyNomMetrics: the flattened number-of-methods record of the bindings. -/
structure PyNomMetrics where
  functions : F64
  closures : F64
  total : F64
  functions_average : F64
  closures_average : F64
  average : F64
  functions_min : F64
  functions_max : F64
  closures_min : F64
  closures_max : F64
deriving DecidableEq

/- From(rca nom Stats) for PyNomMetrics. -/
def PyNomMetrics.ofStats (stats : NomStats) : PyNomMetrics :=
  { functions := stats.functions_sum
    closures := stats.closures_sum
    total := stats.total
    functions_average := stats.functions_average
    closures_average := stats.closures_average
    average := stats.average
    functions_min := stats.functions_min
    functions_max := stats.functions_max
    closures_min := stats.closures_min
    closures_max := stats.closures_max }

/- PyNargsMetrics: the flattened number-of-arguments record of the bindings. -/
structure PyNargsMetrics where
  total_functions : F64
  total_closures : F64
  average_functions : F64
  average_closures : F64
  total : F64
  average : F64
  functions_min : F64
  functions_max : F64
  closures_min : F64
  closures_max : F64
deriving DecidableEq

/- From(rca nargs Stats) for PyNargsMetrics. -/
def PyNargsMetrics.ofStats (stats : NargsStats) : PyNargsMetrics :=
  { total_functions := stats.fn_args_sum
    total_closures := stats.closure_args_sum
    average_functions := stats.fn_args_average
    average_closures := stats.closure_args_average
    total := stats.nargs_total
    average := stats.nargs_average
    functions_min := stats.fn_args_min
    functions_max := stats.fn_args_max
    closures_min := stats.closure_args_min
    closures_max := stats.closure_args_max }

/- PyNexitsMetrics: the flattened exit-points record of the bindings. -/
structure PyNexitsMetrics where
  sum : F64
  average : F64
  min : F64
  max : F64
deriving DecidableEq

/- From(rca exit Stats) for PyNexitsMetrics. -/
def PyNexitsMetrics.ofStats (stats : ExitStats) : PyNexitsMetrics :=
  { sum := stats.exit_sum
    average := stats.exit_average
    min := stats.exit_min
    max := stats.exit_max }

/- PyWmcMetrics: the flattened weighted-methods-per-class record. -/
structure PyWmcMetrics where
  classes : F64
  interfaces : F64
  total : F64
deriving DecidableEq

/- From(rca wmc Stats) for PyWmcMetrics. -/
def PyWmcMetrics.ofStats (stats : WmcStats) : PyWmcMetrics :=
  { classes := stats.class_wmc_sum
    interfaces := stats.interface_wmc_sum
    total := stats.total_wmc }

/- PyNpmMetrics: the flattened number-of-public-methods record. -/
structure PyNpmMetrics where
  classes : F64
  interfaces : F64
  total : F64
deriving DecidableEq

/- From(rca npm Stats) for PyNpmMetrics. -/
def PyNpmMetrics.ofStats (stats : NpmStats) : PyNpmMetrics :=
  { classes := stats.class_npm_sum
    interfaces := stats.interface_npm_sum
    total := stats.total_npm }

/- PyNpaMetrics: the flattened number-of-public-attributes record. -/
structure PyNpaMetrics where
  classes : F64
  interfaces : F64
  total : F64
deriving DecidableEq

/- From(rca npa Stats) for PyNpaMetrics. -/
def PyNpaMetrics.ofStats (stats : NpaStats) : PyNpaMetrics :=
  { classes := stats.class_npa_sum
    interfaces := stats.interface_npa_sum
    total := stats.total_npa }

/- PyCodeMetrics: the aggregate record with exactly one slot per category;
every slot is a mandatory field, so all 12 categories are structurally always
present. -/
structure PyCodeMetrics where
  cyclomatic : PyCyclomaticMetrics
  cognitive : PyCognitiveMetrics
  halstead : PyHalsteadMetrics
  loc : PyLocMetrics
  mi : PyMaintainabilityIndex
  abc : PyAbcMetrics
  nom : PyNomMetrics
  nargs : PyNargsMetrics
  nexits : PyNexitsMetrics
  wmc : PyWmcMetrics
  npm : PyNpmMetrics
  npa : PyNpaMetrics
deriving DecidableEq

/- From(rca CodeMetrics) for PyCodeMetrics: invoke each category converter
on the corresponding facet and assemble the fixed 12-slot record. -/
def PyCodeMetrics.ofMetrics (metrics : CodeMetrics) : PyCodeMetrics :=
  { cyclomatic := .ofStats metrics.cyclomatic
    cognitive := .ofStats metrics.cognitive
    halstead := .ofStats metrics.halstead
    loc := .ofStats metrics.loc
    mi := .ofStats metrics.mi
    abc := .ofStats metrics.abc
    nom := .ofStats metrics.nom
    nargs := .ofStats metrics.nargs
    nexits := .ofStats metrics.nexits
    wmc := .ofStats metrics.wmc
    npm := .ofStats metrics.npm
    npa := .ofStats metrics.npa }

/- SpaceKind: the engine region-kind enumeration (rca SpaceKind). -/
inductive SpaceKind where
  | Unknown
  | Function
  | Class
  | Struct
  | Trait
  | Impl
  | Unit
  | Namespace
  | Interface
deriving DecidableEq

/- PySpaceKind: the bindings region-kind enumeration (types.rs). -/
inductive PySpaceKind where
  | Unknown
  | Function
  | Class
  | Struct
  | Trait
  | Impl
  | Unit
  | Namespace
  | Interface
deriving DecidableEq

/- From(SpaceKind) for PySpaceKind: the constructor-by-constructor match of
types.rs. -/
def PySpaceKind.ofKind (kind : SpaceKind) : PySpaceKind :=
  match kind with
  | .Unknown => .Unknown
  | .Function => .Function
  | .Class => .Class
  | .Struct => .Struct
  | .Trait => .Trait
  | .Impl => .Impl
  | .Unit => .Unit
  | .Namespace => .Namespace
  | .Interface => .Interface

/- FuncSpace: the engine native region tree (rca FuncSpace) as consumed by
the bindings: name, 1-based line span, kind, raw statistics and the ordered
children. -/
inductive FuncSpace where
  | mk (name : Option String) (start_line : Nat) (end_line : Nat)
      (kind : SpaceKind) (metrics : CodeMetrics) (spaces : List FuncSpace)

def FuncSpace.name : FuncSpace → Option String
  | .mk n _ _ _ _ _ => n

def FuncSpace.start_line : FuncSpace → Nat
  | .mk _ s _ _ _ _ => s

def FuncSpace.end_line : FuncSpace → Nat
  | .mk _ _ e _ _ _ => e

def FuncSpace.kind : FuncSpace → SpaceKind
  | .mk _ _ _ k _ _ => k

def FuncSpace.metrics : FuncSpace → CodeMetrics
  | .mk _ _ _ _ m _ => m

def FuncSpace.spaces : FuncSpace → List FuncSpace
  | .mk _ _ _ _ _ sp => sp

/- PyFuncSpace: the bindings space-tree node (types.rs): name, line span,
kind, the aggregate metrics record and the ordered owned children. -/
inductive PyFuncSpace where
  | mk (name : Option String) (start_line : Nat) (end_line : Nat)
      (kind : PySpaceKind) (metrics : PyCodeMetrics) (spaces : List PyFuncSpace)

def PyFuncSpace.name : PyFuncSpace → Option String
  | .mk n _ _ _ _ _ => n

def PyFuncSpace.start_line : PyFuncSpace → Nat
  | .mk _ s _ _ _ _ => s

def PyFuncSpace.end_line : PyFuncSpace → Nat
  | .mk _ _ e _ _ _ => e

def PyFuncSpace.kind : PyFuncSpace → PySpaceKind
  | .mk _ _ _ k _ _ => k

def PyFuncSpace.metrics : PyFuncSpace → PyCodeMetrics
  | .mk _ _ _ _ m _ => m

def PyFuncSpace.spaces : PyFuncSpace → List PyFuncSpace
  | .mk _ _ _ _ _ sp => sp

mutual

/- convert_func_space (types.rs): build the bindings node from a native
region, copying name and line span, mapping the kind, converting the metrics
and recursively converting the children in the engine order. -/
def convert_func_space : FuncSpace → PyFuncSpace
  | .mk n s e k m sp =>
    .mk n s e (PySpaceKind.ofKind k) (PyCodeMetrics.ofMetrics m)
      (convert_func_space_list sp)

/- The iterator map over the children of a native region. -/
def convert_func_space_list : List FuncSpace → List PyFuncSpace
  | [] => []
  | t :: ts => convert_func_space t :: convert_func_space_list ts

end

mutual

/- PyFuncSpace collect_all (types.rs): push this node, then recurse into the
children in order; modelled as the list the accumulator receives. -/
def PyFuncSpace.collect_all : PyFuncSpace → List PyFuncSpace
  | .mk n s e k m sp => .mk n s e k m sp :: PyFuncSpace.collect_all_list sp

/- The loop over the children inside collect_all. -/
def PyFuncSpace.collect_all_list : List PyFuncSpace → List PyFuncSpace
  | [] => []
  | t :: ts => PyFuncSpace.collect_all t ++ PyFuncSpace.collect_all_list ts

end

mutual

/- PyFuncSpace collect_by_kind (types.rs): push this node when its kind
matches, then recurse into the children in order. -/
def PyFuncSpace.collect_by_kind : PyFuncSpace → PySpaceKind → List PyFuncSpace
  | .mk n s e k m sp, target =>
    (if k = target then [PyFuncSpace.mk n s e k m sp] else []) ++
      PyFuncSpace.collect_by_kind_list sp target

/- The loop over the children inside collect_by_kind. -/
def PyFuncSpace.collect_by_kind_list : List PyFuncSpace → PySpaceKind → List PyFuncSpace
  | [], _ => []
  | t :: ts, target =>
    PyFuncSpace.collect_by_kind t target ++
      PyFuncSpace.collect_by_kind_list ts target

end

/- get_functions (types.rs): collect every function space, recursively. -/
def PyFuncSpace.get_functions (t : PyFuncSpace) : List PyFuncSpace :=
  PyFuncSpace.collect_by_kind t .Function

/- get_classes (types.rs): collect every class space, recursively. -/
def PyFuncSpace.get_classes (t : PyFuncSpace) : List PyFuncSpace :=
  PyFuncSpace.collect_by_kind t .Class

/- get_all_spaces (types.rs): collect every space of any kind, recursively. -/
def PyFuncSpace.get_all_spaces (t : PyFuncSpace) : List PyFuncSpace :=
  PyFuncSpace.collect_all t

mutual

/- The number of nodes of a space tree. -/
def PyFuncSpace.size : PyFuncSpace → Nat
  | .mk _ _ _ _ _ sp => 1 + PyFuncSpace.size_list sp

/- The total number of nodes of a forest of space trees. -/
def PyFuncSpace.size_list : List PyFuncSpace → Nat
  | [] => 0
  | t :: ts => PyFuncSpace.size t + PyFuncSpace.size_list ts

end

/- LANG: the engine canonical language identifier, restricted
to the grammars the bindings list. -/
inductive LANG where
  | python
  | rust
  | java
  | javascript
  | typescript
  | tsx
  | kotlin
  | cpp
  | c
deriving DecidableEq

/- supported_languages (lib.rs): the closed, fixed list of language
identifiers accepted by analyze. -/
def supported_languages : List String :=
  ["python", "rust", "java", "javascript", "typescript", "tsx", "kotlin",
    "cpp", "c"]

/- Modelled from the spec: rca get_from_ext, the external engine lookup used
by analyze for an explicit language token; the engine crate is not under the
sources given here. Per the spec (language resolver, external interfaces) it
is a closed, case-sensitive table of the supported language names. -/
def get_from_ext (tok : String) : Option LANG :=
  match tok with
  | "python" => some .python
  | "rust" => some .rust
  | "java" => some .java
  | "javascript" => some .javascript
  | "typescript" => some .typescript
  | "tsx" => some .tsx
  | "kotlin" => some .kotlin
  | "cpp" => some .cpp
  | "c" => some .c
  | _ => none

/- language_from_extension (lib.rs): the pure lookup from a bare file
extension (no dot) to a language name. -/
def language_from_extension (extension : String) : Option String :=
  match extension with
  | "py" => some "python"
  | "rs" => some "rust"
  | "java" => some "java"
  | "js" => some "javascript"
  | "jsx" => some "javascript"
  | "mjs" => some "javascript"
  | "ts" => some "typescript"
  | "tsx" => some "tsx"
  | "kt" => some "kotlin"
  | "kts" => some "kotlin"
  | "cpp" => some "cpp"
  | "cxx" => some "cpp"
  | "cc" => some "cpp"
  | "c" => some "cpp"
  | "h" => some "cpp"
  | "hpp" => some "cpp"
  | "hxx" => some "cpp"
  | _ => none

/- The extensions language_from_extension recognises. -/
def known_extensions : List String :=
  ["py", "rs", "java", "js", "jsx", "mjs", "ts", "tsx", "kt", "kts", "cpp",
    "cxx", "cc", "c", "h", "hpp", "hxx"]

/- PyErr: the two error classes the bindings raise, each with its message. -/
inductive PyErr where
  | valueError (msg : String)
  | ioError (msg : String)
deriving DecidableEq

/- analyze (lib.rs), shallowly embedded. Source text is represented by its
UTF-8 byte sequence, the only form the code consumes. The two engine calls
whose behaviour the bindings do not fix are parameters: guess_language
(content/extension inference, modelled as the first component of the pair the
engine returns) and get_function_spaces (the region-tree builder, absent
result = unparsable input). -/
def analyze (guess_language : List Nat → String → Option LANG)
    (get_function_spaces : LANG → List Nat → String → Option FuncSpace)
    (source : List Nat) (path : String) (language : Option String) :
    Except PyErr PyFuncSpace :=
  match (match language with
    | some lang_str =>
      match get_from_ext lang_str with
      | some l => Except.ok l
      | none => Except.error (PyErr.valueError
          ("Unsupported language: \'" ++ lang_str ++
            "\'. Use supported_languages() to see available options."))
    | none =>
      match guess_language source path with
      | some l => Except.ok l
      | none => Except.error (PyErr.valueError
          ("Could not determine language from file extension: \'" ++ path ++
            "\'")) : Except PyErr LANG) with
  | .error e => .error e
  | .ok lang =>
    match get_function_spaces lang source path with
    | some space => .ok (convert_func_space space)
    | none => .error (.valueError "Failed to parse source code")

/- Whether a byte is a UTF-8 continuation byte. -/
def is_cont (b : Nat) : Bool := 0x80 ≤ b && b ≤ 0xBF

/- Whether a byte sequence is valid UTF-8 (the well-formedness std fs
read_to_string demands), including the overlong and surrogate exclusions. -/
def valid_utf8 : List Nat → Bool
  | [] => true
  | b :: rest =>
    if b ≤ 0x7F then valid_utf8 rest
    else if 0xC2 ≤ b && b ≤ 0xDF then
      match rest with
      | b1 :: r => is_cont b1 && valid_utf8 r
      | [] => false
    else if b = 0xE0 then
      match rest with
      | b1 :: b2 :: r =>
        (0xA0 ≤ b1 && b1 ≤ 0xBF) && is_cont b2 && valid_utf8 r
      | _ => false
    else if (0xE1 ≤ b && b ≤ 0xEC) || (0xEE ≤ b && b ≤ 0xEF) then
      match rest with
      | b1 :: b2 :: r => is_cont b1 && is_cont b2 && valid_utf8 r
      | _ => false
    else if b = 0xED then
      match rest with
      | b1 :: b2 :: r =>
        (0x80 ≤ b1 && b1 ≤ 0x9F) && is_cont b2 && valid_utf8 r
      | _ => false
    else if b = 0xF0 then
      match rest with
      | b1 :: b2 :: b3 :: r =>
        (0x90 ≤ b1 && b1 ≤ 0xBF) && is_cont b2 && is_cont b3 && valid_utf8 r
      | _ => false
    else if 0xF1 ≤ b && b ≤ 0xF3 then
      match rest with
      | b1 :: b2 :: b3 :: r =>
        is_cont b1 && is_cont b2 && is_cont b3 && valid_utf8 r
      | _ => false
    else if b = 0xF4 then
      match rest with
      | b1 :: b2 :: b3 :: r =>
        (0x80 ≤ b1 && b1 ≤ 0x8F) && is_cont b2 && is_cont b3 && valid_utf8 r
      | _ => false
    else false

/- Model of std fs read_to_string over an abstract filesystem: fs maps a path
to either an operating-system error message or the raw bytes of the file.
Per the documented std contract, reading succeeds only when the bytes are
valid UTF-8; the resulting Rust String is represented by its byte sequence. -/
def read_to_string (fs : String → Except String (List Nat)) (path : String) :
    Except String (List Nat) :=
  match fs path with
  | .error e => .error e
  | .ok bytes =>
    if valid_utf8 bytes then .ok bytes
    else .error "stream did not contain valid UTF-8"

/- analyze_file (lib.rs): load the file as text, mapping a read failure to
the IOError naming the path and cause, then delegate to analyze with the
content and the same path. -/
def analyze_file (fs : String → Except String (List Nat))
    (guess_language : List Nat → String → Option LANG)
    (get_function_spaces : LANG → List Nat → String → Option FuncSpace)
    (path : String) (language : Option String) : Except PyErr PyFuncSpace :=
  match read_to_string fs path with
  | .error e => .error (.ioError ("Failed to read file \'" ++ path ++
      "\': " ++ e))
  | .ok source => analyze guess_language get_function_spaces source path language

/- An inference oracle that never recognises the content: the inference path
is irrelevant to the explicit-token claims. -/
def guess0 : List Nat → String → Option LANG := fun _ _ => none

/- An engine that can never produce a region tree. -/
def gfs_none : LANG → List Nat → String → Option FuncSpace := fun _ _ _ => none

/- All-zero statistics for each category. -/
def cyc0 : CyclomaticStats := ⟨f0, f0, f0, f0⟩

def cog0 : CognitiveStats := ⟨f0, f0, f0, f0⟩

def hal0 : HalsteadStats :=
  ⟨f0, f0, f0, f0, f0, f0, f0, f0, f0, f0, f0, f0, f0, f0⟩

def loc0 : LocStats :=
  ⟨f0, f0, f0, f0, f0, f0, f0, f0, f0, f0, f0, f0, f0, f0, f0, f0, f0, f0,
    f0, f0⟩

def mi0 : MiStats := ⟨f0, f0, f0⟩

def abc0 : AbcStats := ⟨f0, f0, f0, f0, f0, f0, f0, f0, f0, f0, f0, f0, f0⟩

def nom0 : NomStats := ⟨f0, f0, f0, f0, f0, f0, f0, f0, f0, f0⟩

def nargs0 : NargsStats := ⟨f0, f0, f0, f0, f0, f0, f0, f0, f0, f0⟩

def exit0 : ExitStats := ⟨f0, f0, f0, f0⟩

def wmc0 : WmcStats := ⟨f0, f0, f0⟩

def npm0 : NpmStats := ⟨f0, f0, f0⟩

def npa0 : NpaStats := ⟨f0, f0, f0⟩

/- Halstead statistics whose difficulty accessor reports NaN, as the engine
does when the underlying formula is undefined for a region (zero distinct
operands). -/
def hal_nan : HalsteadStats :=
  ⟨f0, f0, f0, f0, f0, f0, f0, f0, f0, .nan, f0, f0, f0, f0⟩

/- Aggregate raw statistics carrying the NaN difficulty. -/
def cm_nan : CodeMetrics :=
  ⟨cyc0, cog0, hal_nan, loc0, mi0, abc0, nom0, nargs0, exit0, wmc0, npm0,
    npa0⟩

/- A one-node native region tree whose Halstead difficulty is NaN. -/
def space_nan : FuncSpace := .mk (some "f") 1 1 .Function cm_nan []

/- An engine that reports that region tree for every input. -/
def gfs_nan : LANG → List Nat → String → Option FuncSpace :=
  fun _ _ _ => some space_nan

/- A tiny filesystem for concrete runs: one non-UTF-8 file, one readable
ascii file, nothing else. -/
def fs_w : String → Except String (List Nat) := fun p =>
  if p = "data.bin" then .ok [255]
  else if p = "ok.py" then .ok [104, 105]
  else .error "No such file or directory (os error 2)"

/- The children loop of convert_func_space is the iterator map of the Rust
source. -/
theorem convert_func_space_list_eq_map (ts : List FuncSpace) :
    convert_func_space_list ts = ts.map convert_func_space := by
  induction ts with
  | nil => rfl
  | cons t ts ih => simp [convert_func_space_list, ih]

/- The children loop of collect_all concatenates the children traversals in
order. -/
theorem collect_all_list_eq_flatten (ts : List PyFuncSpace) :
    PyFuncSpace.collect_all_list ts =
      (ts.map PyFuncSpace.collect_all).flatten := by
  induction ts with
  | nil => rfl
  | cons t ts ih => simp [PyFuncSpace.collect_all_list, ih]

mutual

theorem collect_all_length : ∀ t : PyFuncSpace,
    (PyFuncSpace.collect_all t).length = PyFuncSpace.size t
  | .mk n s e k m sp => by
    simp [PyFuncSpace.collect_all, PyFuncSpace.size,
      collect_all_list_length sp, Nat.add_comm]

theorem collect_all_list_length : ∀ ts : List PyFuncSpace,
    (PyFuncSpace.collect_all_list ts).length = PyFuncSpace.size_list ts
  | [] => rfl
  | t :: ts => by
    simp [PyFuncSpace.collect_all_list, PyFuncSpace.size_list,
      collect_all_length t, collect_all_list_length ts]

end

mutual

theorem collect_by_kind_eq_filter : ∀ (t : PyFuncSpace) (k : PySpaceKind),
    PyFuncSpace.collect_by_kind t k =
      (PyFuncSpace.collect_all t).filter
        (fun s => decide (PyFuncSpace.kind s = k))
  | .mk n s e kk m sp, k => by
    simp only [PyFuncSpace.collect_by_kind, PyFuncSpace.collect_all,
      List.filter_cons, collect_by_kind_list_eq_filter sp k, PyFuncSpace.kind]
    by_cases h : kk = k
    · simp [h]
    · simp [h]

theorem collect_by_kind_list_eq_filter :
    ∀ (ts : List PyFuncSpace) (k : PySpaceKind),
    PyFuncSpace.collect_by_kind_list ts k =
      (PyFuncSpace.collect_all_list ts).filter
        (fun s => decide (PyFuncSpace.kind s = k))
  | [], _ => rfl
  | t :: ts, k => by
    simp [PyFuncSpace.collect_by_kind_list, PyFuncSpace.collect_all_list,
      List.filter_append, collect_by_kind_eq_filter t k,
      collect_by_kind_list_eq_filter ts k]

end

/-- Claim C4: for every tree, get_all_spaces performs a pre-order traversal,
placing the node before its children and the children traversals in source
order: its first element is always the root and its length equals one plus
the count of all descendant nodes. -/
theorem get_all_spaces_preorder (t : PyFuncSpace) :
    PyFuncSpace.get_all_spaces t =
      t :: ((PyFuncSpace.spaces t).map PyFuncSpace.collect_all).flatten
    ∧ (PyFuncSpace.get_all_spaces t).head? = some t
    ∧ (PyFuncSpace.get_all_spaces t).length =
        1 + PyFuncSpace.size_list (PyFuncSpace.spaces t) := by
  obtain ⟨n, s, e, k, m, sp⟩ := t
  refine ⟨?_, rfl, ?_⟩
  · simp [PyFuncSpace.get_all_spaces, PyFuncSpace.collect_all,
      PyFuncSpace.spaces, collect_all_list_eq_flatten]
  · simp [PyFuncSpace.get_all_spaces, collect_all_length, PyFuncSpace.size,
      PyFuncSpace.spaces]

/-- Claim C5: for every tree and kind, collect_by_kind returns exactly the
subsequence of get_all_spaces consisting of the nodes of that kind — every
returned node matches, the root is kept when it matches, and the relative
order is the traversal order — and get_functions and get_classes are its two
exposed instances. -/
theorem collect_by_kind_filters_preorder (t : PyFuncSpace) (k : PySpaceKind) :
    PyFuncSpace.collect_by_kind t k =
      (PyFuncSpace.get_all_spaces t).filter
        (fun s => decide (PyFuncSpace.kind s = k))
    ∧ PyFuncSpace.get_functions t =
      (PyFuncSpace.get_all_spaces t).filter
        (fun s => decide (PyFuncSpace.kind s = PySpaceKind.Function))
    ∧ PyFuncSpace.get_classes t =
      (PyFuncSpace.get_all_spaces t).filter
        (fun s => decide (PyFuncSpace.kind s = PySpaceKind.Class)) :=
  ⟨collect_by_kind_eq_filter t k, collect_by_kind_eq_filter t _,
    collect_by_kind_eq_filter t _⟩

/-- Claim C7: language_from_extension is a pure, total lookup on a bare
extension string: py maps to python, rs to rust, an unknown extension such as
unknown-ext to an absent result, and a result is present exactly for the
extensions of the fixed table. -/
theorem language_from_extension_lookup :
    language_from_extension "py" = some "python"
    ∧ language_from_extension "rs" = some "rust"
    ∧ language_from_extension "unknown-ext" = none
    ∧ ∀ ext, (language_from_extension ext).isSome =
        known_extensions.contains ext := by
  refine ⟨rfl, rfl, rfl, ?_⟩
  intro ext
  unfold language_from_extension
  split <;> simp_all [known_extensions, List.contains]

/-- Claim C8: convert_func_space copies each native region's name, start
line and end line verbatim, maps the kind constructor for constructor,
converts the metrics via the aggregator, and builds the children one-to-one
in the engine's reported order. -/
theorem convert_func_space_verbatim (sp : FuncSpace) :
    PyFuncSpace.name (convert_func_space sp) = FuncSpace.name sp
    ∧ PyFuncSpace.start_line (convert_func_space sp) = FuncSpace.start_line sp
    ∧ PyFuncSpace.end_line (convert_func_space sp) = FuncSpace.end_line sp
    ∧ PyFuncSpace.kind (convert_func_space sp) =
        PySpaceKind.ofKind (FuncSpace.kind sp)
    ∧ PyFuncSpace.metrics (convert_func_space sp) =
        PyCodeMetrics.ofMetrics (FuncSpace.metrics sp)
    ∧ PyFuncSpace.spaces (convert_func_space sp) =
        (FuncSpace.spaces sp).map convert_func_space
    ∧ (PyFuncSpace.spaces (convert_func_space sp)).length =
        (FuncSpace.spaces sp).length := by
  obtain ⟨n, s, e, k, m, cs⟩ := sp
  refine ⟨rfl, rfl, rfl, rfl, rfl, ?_, ?_⟩
  · simp [convert_func_space, PyFuncSpace.spaces, FuncSpace.spaces,
      convert_func_space_list_eq_map]
  · simp [convert_func_space, PyFuncSpace.spaces, FuncSpace.spaces,
      convert_func_space_list_eq_map]

/-- Claim C9: the C extensions c and h, and every C++ extension, map to the
language name cpp; no extension maps to the language name c, even though c is
one of the names supported_languages returns. -/
theorem c_extension_maps_to_cpp :
    language_from_extension "c" = some "cpp"
    ∧ language_from_extension "h" = some "cpp"
    ∧ language_from_extension "cpp" = some "cpp"
    ∧ language_from_extension "cxx" = some "cpp"
    ∧ language_from_extension "cc" = some "cpp"
    ∧ language_from_extension "hpp" = some "cpp"
    ∧ language_from_extension "hxx" = some "cpp"
    ∧ (∀ ext, (language_from_extension ext == some "c") = false)
    ∧ "c" ∈ supported_languages := by
  refine ⟨rfl, rfl, rfl, rfl, rfl, rfl, rfl, ?_, by decide⟩
  intro ext
  unfold language_from_extension
  split <;> rfl

/-- Claim C3 (amended): the aggregate metrics record structurally carries all
12 categories, every numeric field mandatory and populated, and each
converter copies the engine accessor values verbatim, so a converted field is
finite exactly when the engine value is — the bindings perform no NaN or
infinity normalization of their own. -/
theorem metrics_record_shape_and_verbatim (m : CodeMetrics)
    (h : HalsteadStats) :
    PyCodeMetrics.ofMetrics m =
      { cyclomatic := .ofStats m.cyclomatic
        cognitive := .ofStats m.cognitive
        halstead := .ofStats m.halstead
        loc := .ofStats m.loc
        mi := .ofStats m.mi
        abc := .ofStats m.abc
        nom := .ofStats m.nom
        nargs := .ofStats m.nargs
        nexits := .ofStats m.nexits
        wmc := .ofStats m.wmc
        npm := .ofStats m.npm
        npa := .ofStats m.npa }
    ∧ PyHalsteadMetrics.ofStats h =
      ⟨h.u_operators, h.operators, h.u_operands, h.operands, h.length,
        h.estimated_program_length, HalsteadStats.purity_ratio h,
        h.vocabulary, h.volume, h.difficulty, h.level, h.effort, h.time,
        h.bugs⟩
    ∧ F64.isFinite (PyHalsteadMetrics.ofStats h).difficulty =
        F64.isFinite h.difficulty :=
  ⟨rfl, rfl, rfl⟩

/-- Claim C3 counterexample: a concrete analyze run whose engine reports a
NaN Halstead difficulty for the root region returns a tree carrying that NaN
in the aggregate record — the numeric fields of a returned tree are not
always finite. -/
theorem metrics_record_nan_counterexample :
    analyze guess0 gfs_nan [] "f.py" (some "python") =
      .ok (convert_func_space space_nan)
    ∧ (PyFuncSpace.metrics (convert_func_space space_nan)).halstead.difficulty
        = F64.nan
    ∧ F64.isFinite
        ((PyFuncSpace.metrics
          (convert_func_space space_nan)).halstead.difficulty) = false :=
  ⟨rfl, rfl, rfl⟩

/-- Claim C1: an explicit language token is looked up in the closed,
case-sensitive table of supported language names — every name of
supported_languages is accepted — and an unknown token makes analyze fail
with the unsupported-language error that names the rejected token and points
the caller to the supported-language listing; in particular the token cobol
is not in the table. -/
theorem analyze_explicit_language_lookup :
    (∀ tok, tok ∈ supported_languages → (get_from_ext tok).isSome = true)
    ∧ (∀ guess gfs source path tok, get_from_ext tok = none →
        analyze guess gfs source path (some tok) =
          .error (.valueError ("Unsupported language: \'" ++ tok ++
            "\'. Use supported_languages() to see available options.")))
    ∧ get_from_ext "cobol" = none := by
  refine ⟨?_, ?_, rfl⟩
  · intro tok h
    fin_cases h <;> rfl
  · intro guess gfs source path tok h
    simp [analyze, h]

/-- Claim C1 witness: the token python is accepted, and a concrete analyze
run with the explicit token cobol fails with the error naming cobol. -/
theorem analyze_explicit_language_lookup_witness :
    (get_from_ext "python").isSome = true
    ∧ analyze guess0 gfs_none [] "file.x" (some "cobol") =
        .error (.valueError ("Unsupported language: \'cobol\'. " ++
          "Use supported_languages() to see available options.")) :=
  ⟨analyze_explicit_language_lookup.1 "python" (by decide),
    (analyze_explicit_language_lookup.2.1 guess0 gfs_none [] "file.x"
      "cobol" rfl).trans (by rfl)⟩

/-- Claim C2 counterexample: when the engine cannot produce a region tree,
the failure of a concrete analyze run is the fixed message, which contains
neither the file path nor the language token — it does not carry the context
the claim promises. -/
theorem parse_failure_context_counterexample :
    analyze guess0 gfs_none [] "foo.py" (some "python") =
      .error (.valueError "Failed to parse source code")
    ∧ decide ("foo.py".data <:+: "Failed to parse source code".data) = false
    ∧ decide ("python".data <:+: "Failed to parse source code".data) = false :=
  ⟨rfl, by decide, by decide⟩

/-- Claim C2 (amended): when the engine reports that it cannot produce a
region tree — on the explicit-token path or the inference path — analyze
fails with the parse failure carrying no partial tree (the result is the bare
error, all-or-nothing), but the failure is the fixed message with no token or
path context. -/
theorem parse_failure_all_or_nothing (guess : List Nat → String → Option LANG)
    (gfs : LANG → List Nat → String → Option FuncSpace)
    (source : List Nat) (path : String) :
    (∀ tok l, get_from_ext tok = some l → gfs l source path = none →
      analyze guess gfs source path (some tok) =
        .error (.valueError "Failed to parse source code"))
    ∧ (∀ l, guess source path = some l → gfs l source path = none →
      analyze guess gfs source path none =
        .error (.valueError "Failed to parse source code")) := by
  constructor
  · intro tok l htok hgfs
    simp [analyze, htok, hgfs]
  · intro l hguess hgfs
    simp [analyze, hguess, hgfs]

/-- Claim C2 witness: a concrete engine refusal on the explicit python path
produces exactly the bare parse-failure error. -/
theorem parse_failure_all_or_nothing_witness :
    analyze guess0 gfs_none [] "bar.py" (some "python") =
      .error (.valueError "Failed to parse source code") :=
  (parse_failure_all_or_nothing guess0 gfs_none [] "bar.py").1 "python"
    .python rfl rfl

/-- Claim C6: analyze_file on an unreadable path fails with the IO error
naming that path and the underlying cause, independently of the language
resolver and the engine (language resolution is never reached); on a readable
file it behaves exactly as analyze applied to the file content with that
path. -/
theorem analyze_file_io_contract (fs : String → Except String (List Nat))
    (path : String) (language : Option String) :
    (∀ e, fs path = .error e → ∀ guess gfs,
      analyze_file fs guess gfs path language =
        .error (.ioError ("Failed to read file \'" ++ path ++ "\': " ++ e)))
    ∧ (∀ bytes, fs path = .ok bytes → valid_utf8 bytes = true →
      ∀ guess gfs, analyze_file fs guess gfs path language =
        analyze guess gfs bytes path language) := by
  constructor
  · intro e he guess gfs
    simp [analyze_file, read_to_string, he]
  · intro bytes hb hv guess gfs
    simp [analyze_file, read_to_string, hb, hv]

/-- Claim C6 witness: on the concrete filesystem, a missing path gives
exactly the IO error naming the path and the cause, and a readable file
behaves as analyze on its content. -/
theorem analyze_file_io_contract_witness :
    analyze_file fs_w guess0 gfs_none "missing.py" none =
      .error (.ioError ("Failed to read file \'missing.py\': " ++
        "No such file or directory (os error 2)"))
    ∧ analyze_file fs_w guess0 gfs_none "ok.py" none =
        analyze guess0 gfs_none [104, 105] "ok.py" none :=
  ⟨((analyze_file_io_contract fs_w "missing.py" none).1
      "No such file or directory (os error 2)" rfl guess0 gfs_none).trans
      (by rfl),
    (analyze_file_io_contract fs_w "ok.py" none).2 [104, 105] rfl rfl guess0
      gfs_none⟩

/-- Claim C10: analyze_file requires the file content to be valid UTF-8: for
an existing file whose bytes are not valid UTF-8, it fails through the same
read-failure path, with the IO error naming the path and the UTF-8 cause,
before any language resolution or parsing — independently of the resolver and
the engine. -/
theorem analyze_file_requires_utf8 (fs : String → Except String (List Nat))
    (path : String) (language : Option String) (bytes : List Nat) :
    fs path = .ok bytes → valid_utf8 bytes = false →
    ∀ guess gfs, analyze_file fs guess gfs path language =
      .error (.ioError ("Failed to read file \'" ++ path ++ "\': " ++
        "stream did not contain valid UTF-8")) := by
  intro hb hv guess gfs
  simp [analyze_file, read_to_string, hb, hv]

/-- Claim C10 witness: the concrete file data.bin holds the lone byte 255,
which is not valid UTF-8, and analyze_file fails with the IO error naming the
path and the UTF-8 cause. -/
theorem analyze_file_requires_utf8_witness :
    valid_utf8 [255] = false
    ∧ analyze_file fs_w guess0 gfs_none "data.bin" none =
        .error (.ioError ("Failed to read file \'data.bin\': " ++
          "stream did not contain valid UTF-8")) :=
  ⟨rfl,
    (analyze_file_requires_utf8 fs_w "data.bin" none [255] rfl rfl guess0
      gfs_none).trans (by rfl)⟩
